import Mathlib

/-!
Verification development for the supertree checkpoint engine
(src-tauri/src/checkpoints.rs) and the Spotlight live-sync registry
(src-tauri/src/spotlight.rs).

Strings from the Rust source are embedded as `List Char` so that every
string operation (prefix/suffix/infix tests, trimming, splitting) is a
plain structural recursion.  Git subprocess effects are embedded as a
state transformer over an explicit repository state together with a
trace of the git commands issued, so that claims about "no git
invocation happened" or "exactly these mutations, in this order" are
directly statable.
-/

namespace Supertree

/-- Strings of the embedded program, as character lists. -/
abbrev Str := List Char

/-- Convert a Lean string literal to the embedded string type. -/
def str (s : String) : Str := s.data

/-- Rust `char::is_whitespace`: the Unicode White_Space code points. -/
def rustIsWhitespace (c : Char) : Bool :=
  c.val == 0x09 || c.val == 0x0a || c.val == 0x0b || c.val == 0x0c ||
  c.val == 0x0d || c.val == 0x20 || c.val == 0x85 || c.val == 0xa0 ||
  c.val == 0x1680 || (0x2000 ≤ c.val && c.val ≤ 0x200a) ||
  c.val == 0x2028 || c.val == 0x2029 || c.val == 0x202f ||
  c.val == 0x205f || c.val == 0x3000

/-- Rust `char::is_control`: the Unicode Cc category,
U+0000..U+001F and U+007F..U+009F. -/
def rustIsControl (c : Char) : Bool :=
  c.val ≤ 0x1f || (0x7f ≤ c.val && c.val ≤ 0x9f)

/-- Rust `str::trim`: drop Unicode whitespace from both ends. -/
def rustTrim (s : Str) : Str :=
  ((s.dropWhile rustIsWhitespace).reverse.dropWhile rustIsWhitespace).reverse

/-- Rust `slice::join(" ")` on the argv list (checkpoints.rs line 291). -/
def joinArgs : List Str → Str
  | [] => []
  | [a] => a
  | a :: rest => a ++ ' ' :: joinArgs rest

/-- Rust `Vec::join(sep)` used for aggregated cleanup errors
(spotlight.rs line 187). -/
def joinSep : List Str → Str → Str
  | [], _ => []
  | [a], _ => a
  | a :: rest, sep => a ++ sep ++ joinSep rest sep

/-- Rust `str::contains(&str)` (substring containment), used by
`validate_checkpoint_id` for the `..` and brace-at patterns. -/
def isSubstring (pat : Str) : Str → Bool
  | [] => decide (pat = [])
  | c :: rest => pat.isPrefixOf (c :: rest) || isSubstring pat rest

/-- checkpoints.rs `CheckpointError` (lines 17-27); error payloads carried
as embedded strings. -/
inductive CheckpointError where
  | Io (message : Str)
  | InvalidUtf8
  | Git (command : Str) (message : Str)
  | InvalidCheckpointId (message : Str)
  | InvalidState (message : Str)
  | MissingMetadata (message : Str)
  | NotARepository (message : Str)
  | Time (message : Str)
deriving DecidableEq

/-- checkpoints.rs `CheckpointOutcome` (lines 11-15). -/
inductive CheckpointOutcome where
  | Created
  | Skipped (reason : Str)
deriving DecidableEq

/-- checkpoints.rs `ZERO_OID` (line 8). -/
def ZERO_OID : Str := str "0000000000000000000000000000000000000000"

/-- checkpoints.rs `CHECKPOINT_REF_PREFIX` constant (line 9): the fixed
ref namespace root. -/
def checkpointRefRoot : Str := str "refs/conductor-checkpoints"

/-- The full ref name `refs/conductor-checkpoints/<id>` built by
create/restore/delete (checkpoints.rs lines 123, 137, 175). -/
def refNameFor (checkpoint_id : Str) : Str :=
  checkpointRefRoot ++ '/' :: checkpoint_id

/-- The `invalid` boolean computed by `validate_checkpoint_id`
(checkpoints.rs lines 214-229), disjunct for disjunct. -/
def checkpointIdInvalid (checkpoint_id : Str) : Bool :=
  decide (checkpoint_id = [])
  || checkpoint_id.any (fun c => rustIsWhitespace c || rustIsControl c)
  || checkpoint_id.any (fun c =>
       decide (c = '/') || decide (c = '\\') || decide (c = ':') ||
       decide (c = '?') || decide (c = '*') || decide (c = '[') ||
       decide (c = '^') || decide (c = '~'))
  || decide (checkpoint_id.head? = some '.')
  || decide (checkpoint_id.getLast? = some '.')
  || (str ".lock").isSuffixOf checkpoint_id
  || isSubstring (str "..") checkpoint_id
  || isSubstring (str "@\x7b") checkpoint_id

/-- checkpoints.rs `validate_checkpoint_id` (lines 214-229). -/
def validate_checkpoint_id (checkpoint_id : Str) : Except CheckpointError Unit :=
  if checkpointIdInvalid checkpoint_id then
    .error (.InvalidCheckpointId (str "Invalid checkpoint_id: " ++ checkpoint_id))
  else
    .ok ()

/-- A git tree object: a finite map from path to file content, as an
association list (first binding wins). -/
abbrev Tree := List (Str × Str)

/-- First-match association-list lookup (git path lookup in a tree,
commit lookup in the object store, ref lookup in the ref store). -/
def findKey {β : Type} : List (Str × β) → Str → Option β
  | [], _ => none
  | e :: rest, k => if e.1 = k then some e.2 else findKey rest k

/-- Decidable extensional equality of trees: the two association lists
bind every key occurring in either one to the same value
("byte-identical" working trees). -/
def treeEq (a b : Tree) : Bool :=
  ((a.map (fun e => e.1)) ++ (b.map (fun e => e.1))).all
    (fun p => decide (findKey a p = findKey b p))

/-- The metadata a checkpoint commit carries in its message
(checkpoints.rs lines 104-107: the `head`, `index-tree` and
`worktree-tree` lines).  Tree oids are abstracted by storing the tree
objects themselves; the textual encode/parse pair (`format!` of the
message and `extract_meta`) is embedded and proved faithful separately
below. -/
structure CheckpointMeta where
  headOid : Str
  indexTree : Tree
  worktreeTree : Tree
deriving DecidableEq

/-- The observable git repository state the checkpoint engine touches:
worktree membership flag, merge/rebase markers in the git dir, HEAD,
the commit object store (commit oid to its root tree), the real index,
the working directory, the ignore rules (as the set of ignored paths),
and the checkpoint ref store (ref name to the checkpoint commit's
metadata). -/
structure GitRepo where
  isWorkTree : Bool
  mergeHead : Bool
  rebaseMergeDir : Bool
  rebaseApplyDir : Bool
  head : Option Str
  commits : List (Str × Tree)
  index : Tree
  worktree : Tree
  ignoredPaths : List Str
  refs : List (Str × CheckpointMeta)
deriving DecidableEq

/-- checkpoints.rs `is_merge_in_progress` (lines 195-202). -/
def is_merge_in_progress (r : GitRepo) : Bool :=
  r.mergeHead || r.rebaseMergeDir || r.rebaseApplyDir

/-- The git subprocess invocations the checkpoint engine issues, in the
order the source issues them.  Tree/oid arguments are carried so the
trace pins down exactly which object each command operates on. -/
inductive GitCmd where
  | revParseInsideWorkTree
  | revParseGitDir
  | revParseVerifyHead
  | writeTreeIndex
  | readTreeScratch (t : Tree)
  | addAllScratch
  | writeTreeScratch
  | commitTree (t : Tree)
  | updateRef (ref : Str)
  | updateRefDelete (ref : Str)
  | revParseVerifyRef (ref : Str)
  | catFileCommit
  | resetHard (oid : Str)
  | readTreeResetU (t : Tree)
  | cleanForceDirs
  | readTreeResetIndex (t : Tree)
deriving DecidableEq

/-- Which git commands mutate the repository (refs, HEAD, index or
working directory), as opposed to read-only queries and operations on
the private scratch index file. -/
def GitCmd.mutatesRepo : GitCmd → Bool
  | .updateRef _ => true
  | .updateRefDelete _ => true
  | .resetHard _ => true
  | .readTreeResetU _ => true
  | .cleanForceDirs => true
  | .readTreeResetIndex _ => true
  | _ => false

/-- Result of a checkpoint-engine operation: the returned value, the
repository state afterwards, and the trace of git subprocesses issued. -/
structure CheckpointResult (α : Type) where
  result : Except CheckpointError α
  repo : GitRepo
  trace : List GitCmd

/-- The scratch-index capture of `create_checkpoint` (checkpoints.rs
lines 93-102): seed a private index from the staged index tree, then
`git add -A -- .` the whole working directory into it.  `add -A` stages
every on-disk file that is either already tracked in the seeded index or
not ignored, and drops entries whose file is gone from disk. -/
def stageAll (index worktree : Tree) (ignoredPaths : List Str) : Tree :=
  worktree.filter
    (fun e => (findKey index e.1).isSome || !(decide (e.1 ∈ ignoredPaths)))

/-- checkpoints.rs `create_checkpoint` (lines 65-132), as a transformer
on the repository state.  Environmental failures (temp-dir IO, clock)
are not modeled; every git call is given its git semantics. -/
def create_checkpoint (r : GitRepo) (checkpoint_id : Str) :
    CheckpointResult CheckpointOutcome :=
  match validate_checkpoint_id checkpoint_id with
  | .error e => ⟨.error e, r, []⟩
  | .ok _ =>
    if !r.isWorkTree then
      ⟨.error (.NotARepository (str "Checkpoint requires a git worktree")), r,
        [.revParseInsideWorkTree]⟩
    else if is_merge_in_progress r then
      ⟨.ok (.Skipped (str "Merge or rebase in progress")), r,
        [.revParseInsideWorkTree, .revParseGitDir]⟩
    else
      -- run_git_optional rev-parse HEAD: an unborn HEAD resolves to none,
      -- which the source replaces by ZERO_OID before the equality test.
      let head_oid := match r.head with
        | some value => value
        | none => ZERO_OID
      if head_oid = ZERO_OID then
        ⟨.ok (.Skipped (str "Repository has no commits")), r,
          [.revParseInsideWorkTree, .revParseGitDir, .revParseVerifyHead]⟩
      else
        let index_tree := r.index
        let worktree_tree := stageAll r.index r.worktree r.ignoredPaths
        let ref_name := refNameFor checkpoint_id
        ⟨.ok .Created,
          { r with refs := (ref_name, ⟨head_oid, index_tree, worktree_tree⟩) :: r.refs },
          [.revParseInsideWorkTree, .revParseGitDir, .revParseVerifyHead,
           .writeTreeIndex, .readTreeScratch index_tree, .addAllScratch,
           .writeTreeScratch, .commitTree worktree_tree, .updateRef ref_name]⟩

/-- Worktree effect of checking a tree out over the working directory
(`git reset --hard` and `git read-tree --reset -u`): paths in `target`
take its content; paths tracked in the pre-command index `oldIndex` but
absent from `target` are removed; untracked paths keep their on-disk
content. -/
def checkoutOnto (target oldIndex w : Tree) : Tree :=
  target ++ w.filter
    (fun e => (findKey target e.1).isNone && (findKey oldIndex e.1).isNone)

/-- `git clean -fd` (checkpoints.rs line 161): remove every on-disk path
untracked in the current index, except ignored paths (no `-x`). -/
def cleanUntracked (index w : Tree) (ignoredPaths : List Str) : Tree :=
  w.filter (fun e => (findKey index e.1).isSome || decide (e.1 ∈ ignoredPaths))

/-- checkpoints.rs `restore_checkpoint` (lines 134-170).  Metadata is
read structurally from the ref store (the textual encode/parse pair is
proved faithful separately); `reset --hard` also clears MERGE_HEAD. -/
def restore_checkpoint (r : GitRepo) (checkpoint_id : Str) :
    CheckpointResult Unit :=
  match validate_checkpoint_id checkpoint_id with
  | .error e => ⟨.error e, r, []⟩
  | .ok _ =>
    if !r.isWorkTree then
      ⟨.error (.NotARepository (str "Checkpoint requires a git worktree")), r,
        [.revParseInsideWorkTree]⟩
    else
      let ref_name := refNameFor checkpoint_id
      match findKey r.refs ref_name with
      | none =>
        -- rev-parse -q --verify on a missing ref exits non-zero with no
        -- stderr, so run_git surfaces a Git error with an empty message.
        ⟨.error (.Git (str "git rev-parse -q --verify " ++ ref_name) []), r,
          [.revParseInsideWorkTree, .revParseVerifyRef ref_name]⟩
      | some meta =>
        if meta.headOid = ZERO_OID then
          ⟨.error (.InvalidState
              (str "Checkpoint saved with unborn HEAD and cannot be restored")), r,
            [.revParseInsideWorkTree, .revParseVerifyRef ref_name, .catFileCommit]⟩
        else
          match findKey r.commits meta.headOid with
          | none =>
            ⟨.error (.Git (str "git reset --hard " ++ meta.headOid)
                (str "fatal: could not parse object")), r,
              [.revParseInsideWorkTree, .revParseVerifyRef ref_name, .catFileCommit,
               .resetHard meta.headOid]⟩
          | some headTree =>
            let w1 := checkoutOnto headTree r.index r.worktree
            let w2 := checkoutOnto meta.worktreeTree headTree w1
            let w3 := cleanUntracked meta.worktreeTree w2 r.ignoredPaths
            ⟨.ok (),
              { r with head := some meta.headOid, mergeHead := false,
                       index := meta.indexTree, worktree := w3 },
              [.revParseInsideWorkTree, .revParseVerifyRef ref_name, .catFileCommit,
               .resetHard meta.headOid, .readTreeResetU meta.worktreeTree,
               .cleanForceDirs, .readTreeResetIndex meta.indexTree]⟩

/-- checkpoints.rs `delete_checkpoint` (lines 172-183).  `git update-ref
-d <ref>` with no expected old value succeeds whether or not the ref
exists (verified against git), so deletion at the ref layer never fails
for a well-formed ref name. -/
def delete_checkpoint (r : GitRepo) (checkpoint_id : Str) :
    CheckpointResult Unit :=
  match validate_checkpoint_id checkpoint_id with
  | .error e => ⟨.error e, r, []⟩
  | .ok _ =>
    if !r.isWorkTree then
      ⟨.error (.NotARepository (str "Checkpoint requires a git worktree")), r,
        [.revParseInsideWorkTree]⟩
    else
      let ref_name := refNameFor checkpoint_id
      ⟨.ok (),
        { r with refs := r.refs.filter (fun e => !(decide (e.1 = ref_name))) },
        [.revParseInsideWorkTree, .updateRefDelete ref_name]⟩

/-- What a spawned git subprocess did: spawn failure, or completion with
an exit status, captured stdout (none when not valid UTF-8, since the
source decodes stdout strictly) and lossily-decoded stderr.  The source
only inspects `status.success()`, never the numeric code. -/
inductive ProcResult where
  | spawnFailed (message : Str)
  | finished (success : Bool) (stdout : Option Str) (stderr : Str)

/-- checkpoints.rs `run_git` (lines 263-297) as a pure function of the
argv and the subprocess behaviour: on non-zero exit it builds a
`Git` error from the space-joined argv and the trimmed stderr (lines
288-294); otherwise it strictly decodes and trims stdout. -/
def run_git (args : List Str) (proc : ProcResult) : Except CheckpointError Str :=
  match proc with
  | .spawnFailed m => .error (.Io m)
  | .finished success stdout stderr =>
    if !success then
      .error (.Git (str "git " ++ joinArgs args) (rustTrim stderr))
    else
      match stdout with
      | none => .error .InvalidUtf8
      | some out => .ok (rustTrim out)

/-- spotlight.rs `SpotlightInstance` (lines 17-24).  The thread-control
handles (stop flag, wake channel, join handle) are represented by the
effect trace of `enable`/`disable` rather than stored. -/
structure SpotlightInstance where
  repo_root : Str
  rollback_checkpoint_id : Str
  sync_checkpoint_id : Str
deriving DecidableEq

/-- The `instances` map of `SpotlightManager` (spotlight.rs line 14). -/
abbrev Registry := List (Str × SpotlightInstance)

/-- The externally visible actions `enable`/`disable` perform:
checkpoint-engine calls and worker-thread lifecycle steps.
`stopWorker` stands for "set the stop flag, send a wake signal, join". -/
inductive SpotEffect where
  | createCp (repo id : Str)
  | spawnWorker
  | stopWorker
  | deleteCp (repo id : Str)
  | restoreCp (repo id : Str)
deriving DecidableEq

/-- Outcome of the `create_checkpoint` call made inside `enable`
(spotlight.rs lines 68-76), with the reason/error already rendered. -/
inductive CreateOutcome where
  | created
  | skipped (reason : Str)
  | failed (err : Str)

/-- What `init_rx.recv_timeout(3s)` observed (spotlight.rs lines
135-137): an acknowledgment from the watcher thread, or no
acknowledgment (timeout, or the thread died before sending). -/
inductive InitAck where
  | acked (res : Except Str Unit)
  | noAck

/-- Result of an enable/disable call: returned value, registry
afterwards, and the trace of external actions taken. -/
structure SpotResult where
  result : Except Str Unit
  registry : Registry
  effects : List SpotEffect

/-- The rollback checkpoint id `spotlight-rollback-{workspace_id}-{stamp}`
(spotlight.rs line 67). -/
def rollbackIdFor (workspace_id stamp : Str) : Str :=
  str "spotlight-rollback-" ++ workspace_id ++ '-' :: stamp

/-- The sync checkpoint id `spotlight-sync-{workspace_id}`
(spotlight.rs line 78). -/
def syncIdFor (workspace_id : Str) : Str :=
  str "spotlight-sync-" ++ workspace_id

/-- spotlight.rs `SpotlightManager::enable` (lines 43-157).  The clock
read is the `stamp` argument; the checkpoint call's outcome and the
watcher-initialization acknowledgment are the `createRes`/`ack`
arguments.  Mutex poisoning is not modeled (single-caller view). -/
def enable (reg : Registry) (workspace_id workspace_path repo_root stamp : Str)
    (createRes : CreateOutcome) (ack : InitAck) : SpotResult :=
  if workspace_path = repo_root then
    ⟨.error (str "Spotlight requires a separate worktree path"), reg, []⟩
  else if (findKey reg workspace_id).isSome then
    ⟨.ok (), reg, []⟩
  else if reg.any (fun e => decide (e.2.repo_root = repo_root)) then
    ⟨.error (str "Spotlight already active for this repository"), reg, []⟩
  else
    let rollback_id := rollbackIdFor workspace_id stamp
    match createRes with
    | .skipped reason =>
      ⟨.error (str "Spotlight cannot start: " ++ reason), reg,
        [.createCp repo_root rollback_id]⟩
    | .failed err =>
      ⟨.error (str "Spotlight failed to create rollback checkpoint: " ++ err), reg,
        [.createCp repo_root rollback_id]⟩
    | .created =>
      let sync_id := syncIdFor workspace_id
      match ack with
      | .noAck =>
        -- recv_timeout failed: the `?` on line 137 returns at once; the
        -- stop flag is never set, the thread is not joined and the
        -- rollback checkpoint ref is not deleted.
        ⟨.error (str "Spotlight failed to initialize watcher"), reg,
          [.createCp repo_root rollback_id, .spawnWorker]⟩
      | .acked (.error err) =>
        ⟨.error err, reg,
          [.createCp repo_root rollback_id, .spawnWorker, .stopWorker,
           .deleteCp repo_root rollback_id]⟩
      | .acked (.ok _) =>
        ⟨.ok (), (workspace_id, ⟨repo_root, rollback_id, sync_id⟩) :: reg,
          [.createCp repo_root rollback_id, .spawnWorker]⟩

/-- spotlight.rs `SpotlightManager::disable` (lines 159-190).  The
outcomes of the restore and the two ref deletions are the
`restoreRes`/`delRollback`/`delSync` arguments. -/
def disable (reg : Registry) (workspace_id : Str)
    (restoreRes delRollback delSync : Except Str Unit) : SpotResult :=
  match findKey reg workspace_id with
  | none => ⟨.ok (), reg, []⟩
  | some inst =>
    let reg' := reg.filter (fun e => !(decide (e.1 = workspace_id)))
    match restoreRes with
    | .error err =>
      ⟨.error (str "Failed to restore rollback checkpoint: " ++ err), reg',
        [.stopWorker, .restoreCp inst.repo_root inst.rollback_checkpoint_id]⟩
    | .ok _ =>
      let cleanup_errors :=
        (match delRollback with
         | .error err => [str "Rollback checkpoint cleanup failed: " ++ err]
         | .ok _ => []) ++
        (match delSync with
         | .error err => [str "Spotlight checkpoint cleanup failed: " ++ err]
         | .ok _ => [])
      ⟨if cleanup_errors.isEmpty then .ok ()
        else .error (joinSep cleanup_errors (str " | ")), reg',
        [.stopWorker, .restoreCp inst.repo_root inst.rollback_checkpoint_id,
         .deleteCp inst.repo_root inst.rollback_checkpoint_id,
         .deleteCp inst.repo_root inst.sync_checkpoint_id]⟩

/-- The id shapes the spec's validation property enumerates, spelled
from the claim's own wording (for comparison against the source-derived
`checkpointIdInvalid`): a separator or git-special character, whitespace
or a control character, a leading or trailing dot, a trailing `.lock`,
a double dot, or an at-brace. -/
def specRejectedId (id : Str) : Bool :=
  id.any (fun c => decide (c = '/')) || id.any (fun c => decide (c = '\\')) ||
  id.any (fun c => decide (c = ':')) || id.any (fun c => decide (c = '?')) ||
  id.any (fun c => decide (c = '*')) || id.any (fun c => decide (c = '[')) ||
  id.any (fun c => decide (c = '^')) || id.any (fun c => decide (c = '~')) ||
  id.any rustIsWhitespace || id.any rustIsControl ||
  decide (id.head? = some '.') || decide (id.getLast? = some '.') ||
  (str ".lock").isSuffixOf id ||
  isSubstring (str "..") id || isSubstring (str "@\x7b") id

/-! ### The commit-message encode/parse pair

`create_checkpoint` serializes the metadata into the commit message and
`restore_checkpoint` parses it back with `extract_meta`; the repository
model above stores the metadata structurally, and the round-trip
theorems below justify that abstraction. -/

/-- Rust `str::strip_prefix`. -/
def dropPre (pre s : Str) : Option Str :=
  if pre.isPrefixOf s then some (s.drop pre.length) else none

/-- The final-`\r` strip Rust's `str::lines` performs on a
`\r\n`-terminated line. -/
def stripCr (line : Str) : Str :=
  if line.getLast? = some '\r' then line.dropLast else line

/-- Helper for Rust `str::lines`: `acc` is the current line, reversed. -/
def linesAux (acc : Str) : Str → List Str
  | [] => if acc = [] then [] else [acc.reverse]
  | c :: rest =>
    if c = '\n' then stripCr acc.reverse :: linesAux [] rest
    else linesAux (c :: acc) rest

/-- Rust `str::lines`, used by `extract_meta` (checkpoints.rs line 232). -/
def rustLines (s : Str) : List Str := linesAux [] s

/-- One iteration of `extract_meta`'s loop (checkpoints.rs lines
233-240): strip the key, then a single space or tab, trim, and yield
the value when non-empty. -/
def metaValueOf (key line : Str) : Option Str :=
  match dropPre key line with
  | none => none
  | some rest =>
    match (match dropPre [' '] rest with
           | some r => some r
           | none => dropPre ['\t'] rest) with
    | none => none
    | some rest2 =>
      let value := rustTrim rest2
      if value = [] then none else some value

/-- checkpoints.rs `extract_meta` (lines 231-245): first line yielding a
value wins; otherwise `MissingMetadata`. -/
def extract_meta (body key : Str) : Except CheckpointError Str :=
  match (rustLines body).findSome? (metaValueOf key) with
  | some value => .ok value
  | none =>
    .error (.MissingMetadata (str "Checkpoint metadata missing: " ++ key))

/-- The commit message `create_checkpoint` formats (checkpoints.rs lines
105-107). -/
def checkpoint_message (checkpoint_id head_oid index_tree worktree_tree
    created : Str) : Str :=
  (str "checkpoint:" ++ checkpoint_id) ++ '\n' ::
  ((str "head " ++ head_oid) ++ '\n' ::
  ((str "index-tree " ++ index_tree) ++ '\n' ::
  ((str "worktree-tree " ++ worktree_tree) ++ '\n' ::
  ((str "created " ++ created) ++ ['\n']))))

/-! ### Concrete sample states used by the witnesses -/

/-- A small concrete repository: one commit `h0` whose tree tracks
`a.txt` = "1"; the index matches the commit; on disk `a.txt` was edited
to "2" and an untracked, non-ignored `b.txt` = "x" exists. -/
def sampleRepo : GitRepo where
  isWorkTree := true
  mergeHead := false
  rebaseMergeDir := false
  rebaseApplyDir := false
  head := some (str "h0")
  commits := [(str "h0", [(str "a.txt", str "1")])]
  index := [(str "a.txt", str "1")]
  worktree := [(str "a.txt", str "2"), (str "b.txt", str "x")]
  ignoredPaths := []
  refs := []

/-- A repository with no commits yet (unborn HEAD). -/
def sampleUnborn : GitRepo where
  isWorkTree := true
  mergeHead := false
  rebaseMergeDir := false
  rebaseApplyDir := false
  head := none
  commits := []
  index := []
  worktree := [(str "c.txt", str "y")]
  ignoredPaths := []
  refs := []

/-- A repository in the middle of a merge (MERGE_HEAD present). -/
def sampleMerging : GitRepo where
  isWorkTree := true
  mergeHead := true
  rebaseMergeDir := false
  rebaseApplyDir := false
  head := some (str "h0")
  commits := [(str "h0", [(str "a.txt", str "1")])]
  index := [(str "a.txt", str "1")]
  worktree := [(str "a.txt", str "1")]
  ignoredPaths := []
  refs := []

/-- Checkpoint metadata as `create_checkpoint` would record it for
`sampleRepo`. -/
def sampleMeta : CheckpointMeta where
  headOid := str "h0"
  indexTree := [(str "a.txt", str "1")]
  worktreeTree := [(str "a.txt", str "2"), (str "b.txt", str "x")]

/-- `sampleRepo` after a checkpoint `cp1` has been created. -/
def sampleRepoWithRef : GitRepo :=
  { sampleRepo with refs := [(refNameFor (str "cp1"), sampleMeta)] }

/-- A registered Spotlight instance targeting `/repo`. -/
def sampleInstance : SpotlightInstance where
  repo_root := str "/repo"
  rollback_checkpoint_id := str "rb-w1"
  sync_checkpoint_id := str "spotlight-sync-w1"

/-- A registry with `w1` active on `/repo`. -/
def sampleRegistry : Registry := [(str "w1", sampleInstance)]

/-! ### Association-list lookup lemmas -/

theorem findKey_filter_key {β : Type} (l : List (Str × β)) (q : Str → Bool)
    (k : Str) :
    findKey (l.filter (fun e => q e.1)) k =
      if q k then findKey l k else none := by
  induction l with
  | nil => simp [findKey]
  | cons e rest ih =>
    by_cases hk : e.1 = k
    · subst hk
      cases he : q e.1 with
      | true => simp [List.filter_cons, he, findKey]
      | false => simp [List.filter_cons, he, findKey, ih]
    · cases he : q e.1 with
      | true => simp [List.filter_cons, he, findKey, hk, ih]
      | false => simp [List.filter_cons, he, findKey, hk, ih]

theorem findKey_append_some {β : Type} (a b : List (Str × β)) (k : Str) (v : β)
    (h : findKey a k = some v) : findKey (a ++ b) k = some v := by
  induction a with
  | nil => simp [findKey] at h
  | cons e rest ih =>
    by_cases hk : e.1 = k
    · simp [findKey, hk] at h ⊢
      exact h
    · simp [findKey, hk] at h ⊢
      exact ih h

theorem findKey_append_none {β : Type} (a b : List (Str × β)) (k : Str)
    (h : findKey a k = none) : findKey (a ++ b) k = findKey b k := by
  induction a with
  | nil => simp [findKey]
  | cons e rest ih =>
    by_cases hk : e.1 = k
    · simp [findKey, hk] at h
    · simp [findKey, hk] at h ⊢
      exact ih h

theorem mem_of_findKey {β : Type} (l : List (Str × β)) (k : Str) (v : β)
    (h : findKey l k = some v) : (k, v) ∈ l := by
  induction l with
  | nil => simp [findKey] at h
  | cons e rest ih =>
    obtain ⟨e1, e2⟩ := e
    by_cases hk : e1 = k
    · subst hk
      simp [findKey] at h
      subst h
      exact List.mem_cons_self _ _
    · simp [findKey, hk] at h
      exact List.mem_cons_of_mem _ (ih h)

theorem filter_eq_self_of_findKey_none {β : Type} (l : List (Str × β)) (k : Str)
    (h : findKey l k = none) :
    l.filter (fun e => !(decide (e.1 = k))) = l := by
  induction l with
  | nil => rfl
  | cons e rest ih =>
    by_cases hk : e.1 = k
    · simp [findKey, hk] at h
    · simp [findKey, hk] at h
      simp [List.filter_cons, hk, ih h]

theorem treeEq_of_pointwise (a b : Tree)
    (h : ∀ p, findKey a p = findKey b p) : treeEq a b = true := by
  simp only [treeEq, List.all_eq_true, decide_eq_true_eq]
  intro p _
  exact h p

theorem treeEq_refl (a : Tree) : treeEq a a = true :=
  treeEq_of_pointwise a a (fun _ => rfl)

/-! ### Pointwise semantics of the tree operations -/

theorem findKey_stageAll (index worktree : Tree) (ignoredPaths : List Str)
    (p : Str) :
    findKey (stageAll index worktree ignoredPaths) p =
      if (findKey index p).isSome || !(decide (p ∈ ignoredPaths)) then
        findKey worktree p
      else none :=
  findKey_filter_key worktree
    (fun x => (findKey index x).isSome || !(decide (x ∈ ignoredPaths))) p

theorem findKey_checkoutOnto (target oldIndex w : Tree) (p : Str) :
    findKey (checkoutOnto target oldIndex w) p =
      match findKey target p with
      | some v => some v
      | none =>
        if findKey oldIndex p = none then findKey w p else none := by
  cases ht : findKey target p with
  | some v =>
    simpa [checkoutOnto] using
      findKey_append_some target
        (w.filter (fun e => (findKey target e.1).isNone && (findKey oldIndex e.1).isNone))
        p v ht
  | none =>
    have h1 := findKey_append_none target
      (w.filter (fun e => (findKey target e.1).isNone && (findKey oldIndex e.1).isNone))
      p ht
    have h2 := findKey_filter_key w
      (fun x => (findKey target x).isNone && (findKey oldIndex x).isNone) p
    rw [checkoutOnto, h1, h2, ht]
    cases hoi : findKey oldIndex p <;> simp

theorem findKey_cleanUntracked (index w : Tree) (ignoredPaths : List Str)
    (p : Str) :
    findKey (cleanUntracked index w ignoredPaths) p =
      if (findKey index p).isSome || decide (p ∈ ignoredPaths) then
        findKey w p
      else none :=
  findKey_filter_key w
    (fun x => (findKey index x).isSome || decide (x ∈ ignoredPaths)) p

/-- The round-trip at a single path: capturing the worktree tree with
the scratch-index `add -A` and then replaying restore's worktree
pipeline (hard reset onto the head tree, overlay of the captured
worktree tree, directory-aware clean) gives back the original on-disk
content, provided every untracked on-disk path is non-ignored. -/
theorem restore_roundtrip_find (I W TH : Tree) (G : List Str)
    (hG : ∀ p c, findKey W p = some c → findKey I p = none → ¬ p ∈ G)
    (p : Str) :
    findKey (cleanUntracked (stageAll I W G)
        (checkoutOnto (stageAll I W G) TH (checkoutOnto TH I W)) G) p
      = findKey W p := by
  have hWT := findKey_stageAll I W G p
  have hW1 := findKey_checkoutOnto TH I W p
  have hW2 := findKey_checkoutOnto (stageAll I W G) TH (checkoutOnto TH I W) p
  have hW3 := findKey_cleanUntracked (stageAll I W G)
      (checkoutOnto (stageAll I W G) TH (checkoutOnto TH I W)) G p
  rw [hW3, hW2, hW1, hWT]
  rcases hw : findKey W p with _ | c <;>
  rcases hi : findKey I p with _ | iv <;>
  rcases hth : findKey TH p with _ | tv <;>
  by_cases hg : p ∈ G <;>
  first
    | exact absurd hg (hG p _ hw hi)
    | simp [hw, hi, hth, hg]

theorem any_of_any_imp (l : List Char) (p q : Char → Bool)
    (himp : ∀ c, p c = true → q c = true) (h : l.any p = true) :
    l.any q = true := by
  obtain ⟨c, hc, hcp⟩ := List.any_eq_true.mp h
  exact List.any_eq_true.mpr ⟨c, hc, himp c hcp⟩

/-- Every id shape the spec rejects is indeed caught by the source's
`validate_checkpoint_id` disjunction. -/
theorem checkpointIdInvalid_of_specRejected (id : Str)
    (h : specRejectedId id = true) : checkpointIdInvalid id = true := by
  simp only [specRejectedId, Bool.or_eq_true] at h
  rcases h with (((((((((((((h | h) | h) | h) | h) | h) | h) | h) | h) | h) | h) | h) | h) | h) | h
  · exact (by simp [checkpointIdInvalid,
      any_of_any_imp id _ _ ((fun c hc => by simp [hc]) : ∀ c,
        decide (c = '/') = true →
        (decide (c = '/') || decide (c = '\\') || decide (c = ':') ||
         decide (c = '?') || decide (c = '*') || decide (c = '[') ||
         decide (c = '^') || decide (c = '~')) = true) h])
  · exact (by simp [checkpointIdInvalid,
      any_of_any_imp id _ _ ((fun c hc => by simp [hc]) : ∀ c,
        decide (c = '\\') = true →
        (decide (c = '/') || decide (c = '\\') || decide (c = ':') ||
         decide (c = '?') || decide (c = '*') || decide (c = '[') ||
         decide (c = '^') || decide (c = '~')) = true) h])
  · exact (by simp [checkpointIdInvalid,
      any_of_any_imp id _ _ ((fun c hc => by simp [hc]) : ∀ c,
        decide (c = ':') = true →
        (decide (c = '/') || decide (c = '\\') || decide (c = ':') ||
         decide (c = '?') || decide (c = '*') || decide (c = '[') ||
         decide (c = '^') || decide (c = '~')) = true) h])
  · exact (by simp [checkpointIdInvalid,
      any_of_any_imp id _ _ ((fun c hc => by simp [hc]) : ∀ c,
        decide (c = '?') = true →
        (decide (c = '/') || decide (c = '\\') || decide (c = ':') ||
         decide (c = '?') || decide (c = '*') || decide (c = '[') ||
         decide (c = '^') || decide (c = '~')) = true) h])
  · exact (by simp [checkpointIdInvalid,
      any_of_any_imp id _ _ ((fun c hc => by simp [hc]) : ∀ c,
        decide (c = '*') = true →
        (decide (c = '/') || decide (c = '\\') || decide (c = ':') ||
         decide (c = '?') || decide (c = '*') || decide (c = '[') ||
         decide (c = '^') || decide (c = '~')) = true) h])
  · exact (by simp [checkpointIdInvalid,
      any_of_any_imp id _ _ ((fun c hc => by simp [hc]) : ∀ c,
        decide (c = '[') = true →
        (decide (c = '/') || decide (c = '\\') || decide (c = ':') ||
         decide (c = '?') || decide (c = '*') || decide (c = '[') ||
         decide (c = '^') || decide (c = '~')) = true) h])
  · exact (by simp [checkpointIdInvalid,
      any_of_any_imp id _ _ ((fun c hc => by simp [hc]) : ∀ c,
        decide (c = '^') = true →
        (decide (c = '/') || decide (c = '\\') || decide (c = ':') ||
         decide (c = '?') || decide (c = '*') || decide (c = '[') ||
         decide (c = '^') || decide (c = '~')) = true) h])
  · exact (by simp [checkpointIdInvalid,
      any_of_any_imp id _ _ ((fun c hc => by simp [hc]) : ∀ c,
        decide (c = '~') = true →
        (decide (c = '/') || decide (c = '\\') || decide (c = ':') ||
         decide (c = '?') || decide (c = '*') || decide (c = '[') ||
         decide (c = '^') || decide (c = '~')) = true) h])
  · exact (by simp [checkpointIdInvalid,
      any_of_any_imp id _ _ ((fun c hc => by simp [hc]) : ∀ c,
        rustIsWhitespace c = true →
        (rustIsWhitespace c || rustIsControl c) = true) h])
  · exact (by simp [checkpointIdInvalid,
      any_of_any_imp id _ _ ((fun c hc => by simp [hc]) : ∀ c,
        rustIsControl c = true →
        (rustIsWhitespace c || rustIsControl c) = true) h])
  · simp [checkpointIdInvalid, h]
  · simp [checkpointIdInvalid, h]
  · simp [checkpointIdInvalid, h]
  · simp [checkpointIdInvalid, h]
  · simp [checkpointIdInvalid, h]

/-! ### Claim theorems -/

/-- Claim C7: for every checkpoint id containing a slash, backslash,
colon, question mark, asterisk, bracket, caret, tilde, whitespace or a
control character, or with a leading or trailing dot, a trailing
`.lock`, a double dot, or an at-brace, each of create_checkpoint,
restore_checkpoint and delete_checkpoint returns an InvalidCheckpointId
error immediately: the git-command trace is empty and the repository
state is unchanged. -/
theorem claim_C7_id_validation (r : GitRepo) (id : Str)
    (h : specRejectedId id = true) :
    create_checkpoint r id =
      ⟨.error (.InvalidCheckpointId (str "Invalid checkpoint_id: " ++ id)), r, []⟩ ∧
    restore_checkpoint r id =
      ⟨.error (.InvalidCheckpointId (str "Invalid checkpoint_id: " ++ id)), r, []⟩ ∧
    delete_checkpoint r id =
      ⟨.error (.InvalidCheckpointId (str "Invalid checkpoint_id: " ++ id)), r, []⟩ := by
  have hinv := checkpointIdInvalid_of_specRejected id h
  refine ⟨?_, ?_, ?_⟩ <;>
    simp [create_checkpoint, restore_checkpoint, delete_checkpoint,
      validate_checkpoint_id, hinv]

/-- Witness for C7 at the concrete id `a/b`. -/
theorem claim_C7_id_validation_witness :
    specRejectedId (str "a/b") = true ∧
    (create_checkpoint sampleRepo (str "a/b") =
      ⟨.error (.InvalidCheckpointId (str "Invalid checkpoint_id: " ++ str "a/b")),
        sampleRepo, []⟩ ∧
     restore_checkpoint sampleRepo (str "a/b") =
      ⟨.error (.InvalidCheckpointId (str "Invalid checkpoint_id: " ++ str "a/b")),
        sampleRepo, []⟩ ∧
     delete_checkpoint sampleRepo (str "a/b") =
      ⟨.error (.InvalidCheckpointId (str "Invalid checkpoint_id: " ++ str "a/b")),
        sampleRepo, []⟩) :=
  ⟨by decide, claim_C7_id_validation sampleRepo (str "a/b") (by decide)⟩

/-- Claim C5: with a valid id on a real worktree, create_checkpoint
returns the Skipped success outcome — not an error — and leaves the
repository (in particular every ref) untouched, both when a merge or
rebase is in progress and when the repository has no commits. -/
theorem claim_C5_skip_semantics (r : GitRepo) (id : Str)
    (hid : checkpointIdInvalid id = false) (hwt : r.isWorkTree = true) :
    (is_merge_in_progress r = true →
      create_checkpoint r id =
        ⟨.ok (.Skipped (str "Merge or rebase in progress")), r,
          [.revParseInsideWorkTree, .revParseGitDir]⟩) ∧
    (is_merge_in_progress r = false → r.head = none →
      create_checkpoint r id =
        ⟨.ok (.Skipped (str "Repository has no commits")), r,
          [.revParseInsideWorkTree, .revParseGitDir, .revParseVerifyHead]⟩) := by
  constructor
  · intro hm
    simp [create_checkpoint, validate_checkpoint_id, hid, hwt, hm]
  · intro hm hh
    simp [create_checkpoint, validate_checkpoint_id, hid, hwt, hm, hh]

/-- Witness for C5: the merge-in-progress repository and the unborn
repository, both at id `cp1`. -/
theorem claim_C5_skip_semantics_witness :
    checkpointIdInvalid (str "cp1") = false ∧
    sampleMerging.isWorkTree = true ∧
    is_merge_in_progress sampleMerging = true ∧
    create_checkpoint sampleMerging (str "cp1") =
      ⟨.ok (.Skipped (str "Merge or rebase in progress")), sampleMerging,
        [.revParseInsideWorkTree, .revParseGitDir]⟩ ∧
    sampleUnborn.head = none ∧
    create_checkpoint sampleUnborn (str "cp1") =
      ⟨.ok (.Skipped (str "Repository has no commits")), sampleUnborn,
        [.revParseInsideWorkTree, .revParseGitDir, .revParseVerifyHead]⟩ :=
  ⟨by decide, rfl, rfl,
   (claim_C5_skip_semantics sampleMerging (str "cp1") (by decide) rfl).1 rfl,
   rfl,
   (claim_C5_skip_semantics sampleUnborn (str "cp1") (by decide) rfl).2 rfl rfl⟩

/-- Claim C8: deleting a checkpoint whose ref does not exist is not an
error — `git update-ref -d` without an expected old value succeeds on a
missing ref — and the repository is left unchanged. -/
theorem claim_C8_delete_missing_ref (r : GitRepo) (id : Str)
    (hid : checkpointIdInvalid id = false) (hwt : r.isWorkTree = true)
    (hmiss : findKey r.refs (refNameFor id) = none) :
    (delete_checkpoint r id).result = .ok () ∧
    (delete_checkpoint r id).repo = r := by
  have hfix := filter_eq_self_of_findKey_none r.refs (refNameFor id) hmiss
  have hstep : delete_checkpoint r id =
      ⟨.ok (),
       { r with refs := r.refs.filter (fun e => !(decide (e.1 = refNameFor id))) },
       [.revParseInsideWorkTree, .updateRefDelete (refNameFor id)]⟩ := by
    simp [delete_checkpoint, validate_checkpoint_id, hid, hwt]
  rw [hstep, hfix]
  exact ⟨rfl, rfl⟩

/-- Witness for C8: deleting the absent checkpoint `nope` on the sample
repository. -/
theorem claim_C8_delete_missing_ref_witness :
    checkpointIdInvalid (str "nope") = false ∧
    findKey sampleRepo.refs (refNameFor (str "nope")) = none ∧
    ((delete_checkpoint sampleRepo (str "nope")).result = .ok () ∧
     (delete_checkpoint sampleRepo (str "nope")).repo = sampleRepo) :=
  ⟨by decide, rfl,
   claim_C8_delete_missing_ref sampleRepo (str "nope") (by decide) rfl rfl⟩

/-- Claim C9 counterexample: a git invocation exiting non-zero with
empty stderr and non-empty stdout yields a command-failure error whose
message is empty — the code takes the trimmed stderr verbatim and does
not fall back to stdout (nor to the exit code, which it never reads). -/
theorem claim_C9_counterexample :
    run_git [str "status"] (.finished false (some (str "boom")) []) =
      .error (.Git (str "git status") []) ∧
    str "boom" ≠ ([] : Str) :=
  ⟨rfl, by decide⟩

/-- Claim C9 amended: every git invocation that exits with non-zero
status yields a command-failure error carrying the space-joined argv
and the trimmed stderr; when stderr is empty the message is simply
empty (no fallback). -/
theorem claim_C9_failure_error (args : List Str) (stdout : Option Str)
    (stderr : Str) :
    run_git args (.finished false stdout stderr) =
      .error (.Git (str "git " ++ joinArgs args) (rustTrim stderr)) := rfl

/-- Claim C6: once the ref resolves and the metadata parses (and the
recorded head is not the unborn sentinel), restore_checkpoint succeeds
and its git-command trace contains exactly four repository mutations, in
this order: hard reset to the recorded head, `read-tree --reset -u` of
the recorded worktree tree, directory-aware force clean, and
`read-tree --reset` of the recorded index tree. -/
theorem claim_C6_restore_mutation_order (r : GitRepo) (id : Str)
    (meta : CheckpointMeta) (headTree : Tree)
    (hid : checkpointIdInvalid id = false) (hwt : r.isWorkTree = true)
    (href : findKey r.refs (refNameFor id) = some meta)
    (hz : meta.headOid ≠ ZERO_OID)
    (hc : findKey r.commits meta.headOid = some headTree) :
    (restore_checkpoint r id).result = .ok () ∧
    (restore_checkpoint r id).trace.filter GitCmd.mutatesRepo =
      [.resetHard meta.headOid, .readTreeResetU meta.worktreeTree,
       .cleanForceDirs, .readTreeResetIndex meta.indexTree] := by
  constructor <;>
    simp [restore_checkpoint, validate_checkpoint_id, hid, hwt, href, hz, hc,
      GitCmd.mutatesRepo, List.filter_cons]

/-- Witness for C6 on the sample repository carrying checkpoint `cp1`. -/
theorem claim_C6_restore_mutation_order_witness :
    checkpointIdInvalid (str "cp1") = false ∧
    sampleRepoWithRef.isWorkTree = true ∧
    findKey sampleRepoWithRef.refs (refNameFor (str "cp1")) = some sampleMeta ∧
    sampleMeta.headOid ≠ ZERO_OID ∧
    findKey sampleRepoWithRef.commits sampleMeta.headOid =
      some [(str "a.txt", str "1")] ∧
    ((restore_checkpoint sampleRepoWithRef (str "cp1")).result = .ok () ∧
     (restore_checkpoint sampleRepoWithRef (str "cp1")).trace.filter
        GitCmd.mutatesRepo =
       [.resetHard sampleMeta.headOid, .readTreeResetU sampleMeta.worktreeTree,
        .cleanForceDirs, .readTreeResetIndex sampleMeta.indexTree]) :=
  ⟨by decide, rfl, by decide, by decide, by decide,
   claim_C6_restore_mutation_order sampleRepoWithRef (str "cp1") sampleMeta
     [(str "a.txt", str "1")] (by decide) rfl (by decide) (by decide) (by decide)⟩

/-- Claim C1: on a repository inside a worktree with at least one
commit, no merge/rebase in progress, and every untracked on-disk file
non-ignored, create_checkpoint returns Created and an immediate
restore_checkpoint of the same id succeeds and reproduces the working
tree byte-for-byte — the worktree contents, the index (the
staged/unstaged split) and HEAD all match the pre-checkpoint state. -/
theorem claim_C1_create_restore_roundtrip (r : GitRepo) (id : Str) (h : Str)
    (headTree : Tree)
    (hid : checkpointIdInvalid id = false)
    (hwt : r.isWorkTree = true)
    (hm : is_merge_in_progress r = false)
    (hh : r.head = some h)
    (hz : h ≠ ZERO_OID)
    (hc : findKey r.commits h = some headTree)
    (hu : r.worktree.all (fun e =>
        (findKey r.index e.1).isSome || !(decide (e.1 ∈ r.ignoredPaths))) = true) :
    (create_checkpoint r id).result = .ok .Created ∧
    (restore_checkpoint (create_checkpoint r id).repo id).result = .ok () ∧
    treeEq (restore_checkpoint (create_checkpoint r id).repo id).repo.worktree
      r.worktree = true ∧
    treeEq (restore_checkpoint (create_checkpoint r id).repo id).repo.index
      r.index = true ∧
    (restore_checkpoint (create_checkpoint r id).repo id).repo.head = r.head := by
  have hG : ∀ p c, findKey r.worktree p = some c →
      findKey r.index p = none → ¬ p ∈ r.ignoredPaths := by
    intro p c hwp hip hgp
    have hmem := mem_of_findKey r.worktree p c hwp
    have hall := (List.all_eq_true.mp hu) _ hmem
    simp [hip, hgp] at hall
  have hcreate : create_checkpoint r id =
      ⟨.ok .Created,
       { r with refs :=
           (refNameFor id,
            ⟨h, r.index, stageAll r.index r.worktree r.ignoredPaths⟩) :: r.refs },
       [.revParseInsideWorkTree, .revParseGitDir, .revParseVerifyHead,
        .writeTreeIndex, .readTreeScratch r.index, .addAllScratch,
        .writeTreeScratch, .commitTree (stageAll r.index r.worktree r.ignoredPaths),
        .updateRef (refNameFor id)]⟩ := by
    simp [create_checkpoint, validate_checkpoint_id, hid, hwt, hm, hh, hz]
  rw [hcreate]
  have hrestore : restore_checkpoint
      { r with refs :=
          (refNameFor id,
           ⟨h, r.index, stageAll r.index r.worktree r.ignoredPaths⟩) :: r.refs } id =
      ⟨.ok (),
       { r with
         refs :=
           (refNameFor id,
            ⟨h, r.index, stageAll r.index r.worktree r.ignoredPaths⟩) :: r.refs,
         head := some h, mergeHead := false, index := r.index,
         worktree :=
           cleanUntracked (stageAll r.index r.worktree r.ignoredPaths)
             (checkoutOnto (stageAll r.index r.worktree r.ignoredPaths) headTree
               (checkoutOnto headTree r.index r.worktree)) r.ignoredPaths },
       [.revParseInsideWorkTree, .revParseVerifyRef (refNameFor id),
        .catFileCommit, .resetHard h,
        .readTreeResetU (stageAll r.index r.worktree r.ignoredPaths),
        .cleanForceDirs, .readTreeResetIndex r.index]⟩ := by
    simp [restore_checkpoint, validate_checkpoint_id, hid, hwt, hz, hc, findKey]
  rw [hrestore]
  refine ⟨rfl, rfl, ?_, treeEq_refl _, hh.symm⟩
  exact treeEq_of_pointwise _ _
    (fun p => restore_roundtrip_find r.index r.worktree headTree r.ignoredPaths hG p)

/-- Witness for C1 on the sample repository (tracked edit to `a.txt`,
untracked `b.txt`) at id `cp1`. -/
theorem claim_C1_create_restore_roundtrip_witness :
    checkpointIdInvalid (str "cp1") = false ∧
    sampleRepo.isWorkTree = true ∧
    is_merge_in_progress sampleRepo = false ∧
    sampleRepo.head = some (str "h0") ∧
    str "h0" ≠ ZERO_OID ∧
    findKey sampleRepo.commits (str "h0") = some [(str "a.txt", str "1")] ∧
    sampleRepo.worktree.all (fun e =>
        (findKey sampleRepo.index e.1).isSome ||
        !(decide (e.1 ∈ sampleRepo.ignoredPaths))) = true ∧
    ((create_checkpoint sampleRepo (str "cp1")).result = .ok .Created ∧
     (restore_checkpoint (create_checkpoint sampleRepo (str "cp1")).repo
        (str "cp1")).result = .ok () ∧
     treeEq (restore_checkpoint (create_checkpoint sampleRepo (str "cp1")).repo
        (str "cp1")).repo.worktree sampleRepo.worktree = true ∧
     treeEq (restore_checkpoint (create_checkpoint sampleRepo (str "cp1")).repo
        (str "cp1")).repo.index sampleRepo.index = true ∧
     (restore_checkpoint (create_checkpoint sampleRepo (str "cp1")).repo
        (str "cp1")).repo.head = sampleRepo.head) :=
  ⟨by decide, rfl, rfl, rfl, by decide, by decide, by decide,
   claim_C1_create_restore_roundtrip sampleRepo (str "cp1") (str "h0")
     [(str "a.txt", str "1")] (by decide) rfl rfl rfl (by decide) (by decide)
     (by decide)⟩

/-- Claim C2: if some registered instance already targets `repo_root`
and the enabling call uses a workspace id that is not registered, enable
returns an error, performs no external action (in particular creates no
rollback checkpoint), and leaves the registry unchanged. -/
theorem claim_C2_repo_exclusivity (reg : Registry)
    (workspace_id workspace_path repo_root stamp : Str)
    (createRes : CreateOutcome) (ack : InitAck)
    (hbusy : reg.any (fun e => decide (e.2.repo_root = repo_root)) = true)
    (hnew : findKey reg workspace_id = none) :
    (∃ msg, (enable reg workspace_id workspace_path repo_root stamp createRes
        ack).result = .error msg) ∧
    (enable reg workspace_id workspace_path repo_root stamp createRes
        ack).effects = [] ∧
    (enable reg workspace_id workspace_path repo_root stamp createRes
        ack).registry = reg := by
  by_cases hp : workspace_path = repo_root
  · exact ⟨⟨str "Spotlight requires a separate worktree path",
      by simp [enable, hp]⟩, by simp [enable, hp], by simp [enable, hp]⟩
  · exact ⟨⟨str "Spotlight already active for this repository",
      by simp [enable, hp, hnew, hbusy]⟩,
      by simp [enable, hp, hnew, hbusy], by simp [enable, hp, hnew, hbusy]⟩

/-- Witness for C2: `w2` tries to target `/repo` while `w1` already
syncs it. -/
theorem claim_C2_repo_exclusivity_witness :
    sampleRegistry.any (fun e => decide (e.2.repo_root = str "/repo")) = true ∧
    findKey sampleRegistry (str "w2") = none ∧
    ((∃ msg, (enable sampleRegistry (str "w2") (str "/ws2") (str "/repo")
        (str "0") .created .noAck).result = .error msg) ∧
     (enable sampleRegistry (str "w2") (str "/ws2") (str "/repo") (str "0")
        .created .noAck).effects = [] ∧
     (enable sampleRegistry (str "w2") (str "/ws2") (str "/repo") (str "0")
        .created .noAck).registry = sampleRegistry) :=
  ⟨by decide, by decide,
   claim_C2_repo_exclusivity sampleRegistry (str "w2") (str "/ws2")
     (str "/repo") (str "0") .created .noAck (by decide) (by decide)⟩

/-- Claim C3, at the failing input: when the rollback checkpoint was
created but the watcher-initialization acknowledgment never arrives
(`recv_timeout` fails), enable returns the error yet its effect trace
shows the rollback checkpoint was created and the worker spawned with
no stop of the worker and no deletion of the rollback checkpoint ref —
contradicting the claim that every failure path leaves nothing behind. -/
theorem claim_C3_init_timeout_leak :
    (enable [] (str "w1") (str "/ws") (str "/repo") (str "7") .created
        .noAck).result = .error (str "Spotlight failed to initialize watcher") ∧
    (enable [] (str "w1") (str "/ws") (str "/repo") (str "7") .created
        .noAck).registry = [] ∧
    (enable [] (str "w1") (str "/ws") (str "/repo") (str "7") .created
        .noAck).effects =
      [.createCp (str "/repo") (rollbackIdFor (str "w1") (str "7")),
       .spawnWorker] ∧
    SpotEffect.stopWorker ∉
      (enable [] (str "w1") (str "/ws") (str "/repo") (str "7") .created
        .noAck).effects ∧
    SpotEffect.deleteCp (str "/repo") (rollbackIdFor (str "w1") (str "7")) ∉
      (enable [] (str "w1") (str "/ws") (str "/repo") (str "7") .created
        .noAck).effects :=
  ⟨rfl, rfl, rfl, by decide, by decide⟩

/-- Claim C4: for a registered instance, a failing rollback restore is
fatal — disable propagates the error and attempts no ref deletion —
while after a successful restore both checkpoint refs are deleted
(restore is never re-attempted: the effect trace holds exactly one
restore, before the deletions) and deletion failures are aggregated
into a combined `|`-joined error message. -/
theorem claim_C4_disable_restore_cleanup (reg : Registry)
    (workspace_id : Str) (inst : SpotlightInstance)
    (restoreRes delRollback delSync : Except Str Unit)
    (hfound : findKey reg workspace_id = some inst) :
    (∀ err, restoreRes = .error err →
      (disable reg workspace_id restoreRes delRollback delSync).result =
        .error (str "Failed to restore rollback checkpoint: " ++ err) ∧
      (disable reg workspace_id restoreRes delRollback delSync).effects =
        [.stopWorker, .restoreCp inst.repo_root inst.rollback_checkpoint_id]) ∧
    (restoreRes = .ok () →
      (disable reg workspace_id restoreRes delRollback delSync).effects =
        [.stopWorker, .restoreCp inst.repo_root inst.rollback_checkpoint_id,
         .deleteCp inst.repo_root inst.rollback_checkpoint_id,
         .deleteCp inst.repo_root inst.sync_checkpoint_id] ∧
      (delRollback = .ok () → delSync = .ok () →
        (disable reg workspace_id restoreRes delRollback delSync).result =
          .ok ()) ∧
      (∀ e1, delRollback = .error e1 → delSync = .ok () →
        (disable reg workspace_id restoreRes delRollback delSync).result =
          .error (str "Rollback checkpoint cleanup failed: " ++ e1)) ∧
      (∀ e2, delRollback = .ok () → delSync = .error e2 →
        (disable reg workspace_id restoreRes delRollback delSync).result =
          .error (str "Spotlight checkpoint cleanup failed: " ++ e2)) ∧
      (∀ e1 e2, delRollback = .error e1 → delSync = .error e2 →
        (disable reg workspace_id restoreRes delRollback delSync).result =
          .error (str "Rollback checkpoint cleanup failed: " ++ e1 ++
            str " | " ++ (str "Spotlight checkpoint cleanup failed: " ++ e2)))) := by
  refine ⟨?_, ?_⟩
  · intro err herr
    subst herr
    exact ⟨by simp [disable, hfound], by simp [disable, hfound]⟩
  · intro hok
    subst hok
    refine ⟨by simp [disable, hfound], ?_, ?_, ?_, ?_⟩
    · intro h1 h2
      subst h1; subst h2
      simp [disable, hfound]
    · intro e1 h1 h2
      subst h1; subst h2
      simp [disable, hfound, joinSep]
    · intro e2 h1 h2
      subst h1; subst h2
      simp [disable, hfound, joinSep]
    · intro e1 e2 h1 h2
      subst h1; subst h2
      simp [disable, hfound, joinSep]

/-- Witness for C4: disabling `w1` with a successful restore and
successful cleanup. -/
theorem claim_C4_disable_restore_cleanup_witness :
    findKey sampleRegistry (str "w1") = some sampleInstance ∧
    ((∀ err, (.ok () : Except Str Unit) = .error err →
      (disable sampleRegistry (str "w1") (.ok ()) (.ok ()) (.ok ())).result =
        .error (str "Failed to restore rollback checkpoint: " ++ err) ∧
      (disable sampleRegistry (str "w1") (.ok ()) (.ok ()) (.ok ())).effects =
        [.stopWorker,
         .restoreCp sampleInstance.repo_root
           sampleInstance.rollback_checkpoint_id]) ∧
    ((.ok () : Except Str Unit) = .ok () →
      (disable sampleRegistry (str "w1") (.ok ()) (.ok ()) (.ok ())).effects =
        [.stopWorker,
         .restoreCp sampleInstance.repo_root
           sampleInstance.rollback_checkpoint_id,
         .deleteCp sampleInstance.repo_root
           sampleInstance.rollback_checkpoint_id,
         .deleteCp sampleInstance.repo_root
           sampleInstance.sync_checkpoint_id] ∧
      ((.ok () : Except Str Unit) = .ok () → (.ok () : Except Str Unit) = .ok () →
        (disable sampleRegistry (str "w1") (.ok ()) (.ok ()) (.ok ())).result =
          .ok ()) ∧
      (∀ e1, (.ok () : Except Str Unit) = .error e1 →
        (.ok () : Except Str Unit) = .ok () →
        (disable sampleRegistry (str "w1") (.ok ()) (.ok ()) (.ok ())).result =
          .error (str "Rollback checkpoint cleanup failed: " ++ e1)) ∧
      (∀ e2, (.ok () : Except Str Unit) = .ok () →
        (.ok () : Except Str Unit) = .error e2 →
        (disable sampleRegistry (str "w1") (.ok ()) (.ok ()) (.ok ())).result =
          .error (str "Spotlight checkpoint cleanup failed: " ++ e2)) ∧
      (∀ e1 e2, (.ok () : Except Str Unit) = .error e1 →
        (.ok () : Except Str Unit) = .error e2 →
        (disable sampleRegistry (str "w1") (.ok ()) (.ok ()) (.ok ())).result =
          .error (str "Rollback checkpoint cleanup failed: " ++ e1 ++
            str " | " ++ (str "Spotlight checkpoint cleanup failed: " ++ e2))))) :=
  ⟨by decide,
   claim_C4_disable_restore_cleanup sampleRegistry (str "w1") sampleInstance
     (.ok ()) (.ok ()) (.ok ()) (by decide)⟩

/-- Claim C10 counterexample: with `w1` already registered, enable
called for `w1` with equal supplied workspace and repository paths
returns an error, not `Ok(())` — the separate-worktree guard runs
before the registered-workspace check. -/
theorem claim_C10_counterexample :
    (enable sampleRegistry (str "w1") (str "/p") (str "/p") (str "0") .created
        (.acked (.ok ()))).result =
      .error (str "Spotlight requires a separate worktree path") := rfl

/-- Claim C10 amended: provided the supplied workspace path differs
from the supplied repository root, enable on an already-registered
workspace id returns `Ok(())` immediately, performs no external action
(no checkpoint, no thread), and leaves the registry — including the
registered instance — unchanged, whatever paths are supplied. -/
theorem claim_C10_enable_idempotent (reg : Registry)
    (workspace_id workspace_path repo_root stamp : Str)
    (createRes : CreateOutcome) (ack : InitAck) (inst : SpotlightInstance)
    (hne : workspace_path ≠ repo_root)
    (hreg : findKey reg workspace_id = some inst) :
    (enable reg workspace_id workspace_path repo_root stamp createRes
        ack).result = .ok () ∧
    (enable reg workspace_id workspace_path repo_root stamp createRes
        ack).registry = reg ∧
    (enable reg workspace_id workspace_path repo_root stamp createRes
        ack).effects = [] := by
  refine ⟨?_, ?_, ?_⟩ <;> simp [enable, hne, hreg]

/-- Witness for C10 (amended): re-enabling `w1` with fresh paths that
differ from the registered instance's paths. -/
theorem claim_C10_enable_idempotent_witness :
    str "/elsewhere" ≠ str "/repo2" ∧
    findKey sampleRegistry (str "w1") = some sampleInstance ∧
    ((enable sampleRegistry (str "w1") (str "/elsewhere") (str "/repo2")
        (str "9") .created .noAck).result = .ok () ∧
     (enable sampleRegistry (str "w1") (str "/elsewhere") (str "/repo2")
        (str "9") .created .noAck).registry = sampleRegistry ∧
     (enable sampleRegistry (str "w1") (str "/elsewhere") (str "/repo2")
        (str "9") .created .noAck).effects = []) :=
  ⟨by decide, by decide,
   claim_C10_enable_idempotent sampleRegistry (str "w1") (str "/elsewhere")
     (str "/repo2") (str "9") .created .noAck sampleInstance (by decide)
     (by decide)⟩

/-! ### Faithfulness of the commit-message encode/parse pair

These theorems show that `extract_meta` applied to the exact message
`create_checkpoint` formats recovers the three metadata fields, for any
field values free of line breaks — which justifies the structural
metadata store used by the repository model. -/

theorem isPrefixOf_self_append (l t : Str) : l.isPrefixOf (l ++ t) = true := by
  induction l with
  | nil => simp [List.isPrefixOf]
  | cons a l ih => simp [List.isPrefixOf, ih]

theorem drop_length_append (l t : Str) : (l ++ t).drop l.length = t := by
  induction l with
  | nil => simp
  | cons a l ih => simp [ih]

theorem metaValueOf_key_space (key v : Str) (htr : rustTrim v = v)
    (hne : v ≠ []) : metaValueOf key (key ++ ' ' :: v) = some v := by
  have hp := isPrefixOf_self_append key (' ' :: v)
  have hd := drop_length_append key (' ' :: v)
  simp [metaValueOf, dropPre, hp, hd, List.isPrefixOf, htr, hne]

theorem metaValueOf_headMismatch (a b : Char) (ks ls : Str)
    (hab : (a == b) = false) : metaValueOf (a :: ks) (b :: ls) = none := by
  simp [metaValueOf, dropPre, List.isPrefixOf, hab]

theorem linesAux_line (s rest : Str) :
    ∀ acc : Str, (∀ c ∈ s, c ≠ '\n') →
      linesAux acc (s ++ '\n' :: rest) =
        stripCr (acc.reverse ++ s) :: linesAux [] rest := by
  induction s with
  | nil =>
    intro acc _
    simp [linesAux]
  | cons c s ih =>
    intro acc hs
    have hc : ¬ c = '\n' := hs c (by simp)
    have hs' : ∀ d ∈ s, d ≠ '\n' := fun d hd => hs d (by simp [hd])
    have harr : (c :: acc).reverse ++ s = acc.reverse ++ c :: s := by simp
    simp only [List.cons_append, linesAux, if_neg hc]
    rw [show linesAux (c :: acc) (s.append ('\n' :: rest)) =
          stripCr ((c :: acc).reverse ++ s) :: linesAux [] rest from
        ih (c :: acc) hs',
      harr]

theorem forall_mem_append {p : Char → Prop} (a b : Str)
    (ha : ∀ c ∈ a, p c) (hb : ∀ c ∈ b, p c) : ∀ c ∈ a ++ b, p c := by
  intro c hc
  rcases List.mem_append.mp hc with h | h
  · exact ha c h
  · exact hb c h

theorem rustLines_checkpoint_message (id h it wt ts : Str)
    (h1 : ∀ c ∈ id, c ≠ '\n') (h2 : ∀ c ∈ h, c ≠ '\n')
    (h3 : ∀ c ∈ it, c ≠ '\n') (h4 : ∀ c ∈ wt, c ≠ '\n')
    (h5 : ∀ c ∈ ts, c ≠ '\n') :
    rustLines (checkpoint_message id h it wt ts) =
      [stripCr (str "checkpoint:" ++ id), stripCr (str "head " ++ h),
       stripCr (str "index-tree " ++ it), stripCr (str "worktree-tree " ++ wt),
       stripCr (str "created " ++ ts)] := by
  unfold rustLines checkpoint_message
  rw [linesAux_line _ _ [] (forall_mem_append _ _ (by decide) h1),
      linesAux_line _ _ [] (forall_mem_append _ _ (by decide) h2),
      linesAux_line _ _ [] (forall_mem_append _ _ (by decide) h3),
      linesAux_line _ _ [] (forall_mem_append _ _ (by decide) h4),
      linesAux_line _ _ [] (forall_mem_append _ _ (by decide) h5)]
  simp [linesAux]

theorem getLast?_concat_char (l : Str) (a : Char) :
    (l ++ [a]).getLast? = some a := by
  induction l with
  | nil => rfl
  | cons b bs ih =>
    cases bs with
    | nil => rfl
    | cons c cs => simp [List.getLast?, ih]

theorem getLast?_append_ne_cr (pre fld : Str)
    (hpre : pre.getLast? ≠ some '\r') (hfld : ∀ c ∈ fld, c ≠ '\r') :
    (pre ++ fld).getLast? ≠ some '\r' := by
  induction fld generalizing pre with
  | nil => simpa using hpre
  | cons d ds ih =>
    have hd : d ≠ '\r' := hfld d (by simp)
    have hds : ∀ c ∈ ds, c ≠ '\r' := fun c hc => hfld c (by simp [hc])
    have hsplit : pre ++ d :: ds = (pre ++ [d]) ++ ds := by simp
    rw [hsplit]
    refine ih (pre ++ [d]) ?_ hds
    rw [getLast?_concat_char]
    simp [hd]

theorem stripCr_preserved (pre fld : Str)
    (hpre : pre.getLast? ≠ some '\r') (hfld : ∀ c ∈ fld, c ≠ '\r') :
    stripCr (pre ++ fld) = pre ++ fld := by
  rw [stripCr, if_neg (getLast?_append_ne_cr pre fld hpre hfld)]

/-- Parsing the `head` field back out of the formatted commit message. -/
theorem extract_meta_head (id h it wt ts : Str)
    (hid : ∀ c ∈ id, c ≠ '\n' ∧ c ≠ '\r')
    (hh : ∀ c ∈ h, c ≠ '\n' ∧ c ≠ '\r')
    (hit : ∀ c ∈ it, c ≠ '\n' ∧ c ≠ '\r')
    (hwt : ∀ c ∈ wt, c ≠ '\n' ∧ c ≠ '\r')
    (hts : ∀ c ∈ ts, c ≠ '\n' ∧ c ≠ '\r')
    (htr : rustTrim h = h) (hne : h ≠ []) :
    extract_meta (checkpoint_message id h it wt ts) (str "head") = .ok h := by
  have hlines := rustLines_checkpoint_message id h it wt ts
    (fun c hc => (hid c hc).1) (fun c hc => (hh c hc).1)
    (fun c hc => (hit c hc).1) (fun c hc => (hwt c hc).1)
    (fun c hc => (hts c hc).1)
  have m1 : metaValueOf (str "head") (str "checkpoint:" ++ id) = none := by
    rw [show str "checkpoint:" ++ id = 'c' :: (str "heckpoint:" ++ id) from rfl,
        show (str "head") = 'h' :: str "ead" from rfl]
    exact metaValueOf_headMismatch 'h' 'c' _ _ (by decide)
  have m2 : metaValueOf (str "head") (str "head " ++ h) = some h := by
    rw [show str "head " ++ h = (str "head") ++ ' ' :: h from rfl]
    exact metaValueOf_key_space (str "head") h htr hne
  simp only [extract_meta, hlines,
    stripCr_preserved (str "checkpoint:") id (by decide)
      (fun c hc => (hid c hc).2),
    stripCr_preserved (str "head ") h (by decide) (fun c hc => (hh c hc).2),
    stripCr_preserved (str "index-tree ") it (by decide)
      (fun c hc => (hit c hc).2),
    stripCr_preserved (str "worktree-tree ") wt (by decide)
      (fun c hc => (hwt c hc).2),
    stripCr_preserved (str "created ") ts (by decide)
      (fun c hc => (hts c hc).2),
    List.findSome?, m1, m2]

/-- Parsing the `index-tree` field back out of the formatted message. -/
theorem extract_meta_index_tree (id h it wt ts : Str)
    (hid : ∀ c ∈ id, c ≠ '\n' ∧ c ≠ '\r')
    (hh : ∀ c ∈ h, c ≠ '\n' ∧ c ≠ '\r')
    (hit : ∀ c ∈ it, c ≠ '\n' ∧ c ≠ '\r')
    (hwt : ∀ c ∈ wt, c ≠ '\n' ∧ c ≠ '\r')
    (hts : ∀ c ∈ ts, c ≠ '\n' ∧ c ≠ '\r')
    (htr : rustTrim it = it) (hne : it ≠ []) :
    extract_meta (checkpoint_message id h it wt ts) (str "index-tree") =
      .ok it := by
  have hlines := rustLines_checkpoint_message id h it wt ts
    (fun c hc => (hid c hc).1) (fun c hc => (hh c hc).1)
    (fun c hc => (hit c hc).1) (fun c hc => (hwt c hc).1)
    (fun c hc => (hts c hc).1)
  have m1 : metaValueOf (str "index-tree") (str "checkpoint:" ++ id) = none := by
    rw [show str "checkpoint:" ++ id = 'c' :: (str "heckpoint:" ++ id) from rfl,
        show (str "index-tree") = 'i' :: str "ndex-tree" from rfl]
    exact metaValueOf_headMismatch 'i' 'c' _ _ (by decide)
  have m2 : metaValueOf (str "index-tree") (str "head " ++ h) = none := by
    rw [show str "head " ++ h = 'h' :: (str "ead " ++ h) from rfl,
        show (str "index-tree") = 'i' :: str "ndex-tree" from rfl]
    exact metaValueOf_headMismatch 'i' 'h' _ _ (by decide)
  have m3 : metaValueOf (str "index-tree") (str "index-tree " ++ it) =
      some it := by
    rw [show str "index-tree " ++ it = (str "index-tree") ++ ' ' :: it from rfl]
    exact metaValueOf_key_space (str "index-tree") it htr hne
  simp only [extract_meta, hlines,
    stripCr_preserved (str "checkpoint:") id (by decide)
      (fun c hc => (hid c hc).2),
    stripCr_preserved (str "head ") h (by decide) (fun c hc => (hh c hc).2),
    stripCr_preserved (str "index-tree ") it (by decide)
      (fun c hc => (hit c hc).2),
    stripCr_preserved (str "worktree-tree ") wt (by decide)
      (fun c hc => (hwt c hc).2),
    stripCr_preserved (str "created ") ts (by decide)
      (fun c hc => (hts c hc).2),
    List.findSome?, m1, m2, m3]

/-- Parsing the `worktree-tree` field back out of the formatted message. -/
theorem extract_meta_worktree_tree (id h it wt ts : Str)
    (hid : ∀ c ∈ id, c ≠ '\n' ∧ c ≠ '\r')
    (hh : ∀ c ∈ h, c ≠ '\n' ∧ c ≠ '\r')
    (hit : ∀ c ∈ it, c ≠ '\n' ∧ c ≠ '\r')
    (hwt : ∀ c ∈ wt, c ≠ '\n' ∧ c ≠ '\r')
    (hts : ∀ c ∈ ts, c ≠ '\n' ∧ c ≠ '\r')
    (htr : rustTrim wt = wt) (hne : wt ≠ []) :
    extract_meta (checkpoint_message id h it wt ts) (str "worktree-tree") =
      .ok wt := by
  have hlines := rustLines_checkpoint_message id h it wt ts
    (fun c hc => (hid c hc).1) (fun c hc => (hh c hc).1)
    (fun c hc => (hit c hc).1) (fun c hc => (hwt c hc).1)
    (fun c hc => (hts c hc).1)
  have m1 : metaValueOf (str "worktree-tree") (str "checkpoint:" ++ id) =
      none := by
    rw [show str "checkpoint:" ++ id = 'c' :: (str "heckpoint:" ++ id) from rfl,
        show (str "worktree-tree") = 'w' :: str "orktree-tree" from rfl]
    exact metaValueOf_headMismatch 'w' 'c' _ _ (by decide)
  have m2 : metaValueOf (str "worktree-tree") (str "head " ++ h) = none := by
    rw [show str "head " ++ h = 'h' :: (str "ead " ++ h) from rfl,
        show (str "worktree-tree") = 'w' :: str "orktree-tree" from rfl]
    exact metaValueOf_headMismatch 'w' 'h' _ _ (by decide)
  have m3 : metaValueOf (str "worktree-tree") (str "index-tree " ++ it) =
      none := by
    rw [show str "index-tree " ++ it = 'i' :: (str "ndex-tree " ++ it) from rfl,
        show (str "worktree-tree") = 'w' :: str "orktree-tree" from rfl]
    exact metaValueOf_headMismatch 'w' 'i' _ _ (by decide)
  have m4 : metaValueOf (str "worktree-tree") (str "worktree-tree " ++ wt) =
      some wt := by
    rw [show str "worktree-tree " ++ wt =
        (str "worktree-tree") ++ ' ' :: wt from rfl]
    exact metaValueOf_key_space (str "worktree-tree") wt htr hne
  simp only [extract_meta, hlines,
    stripCr_preserved (str "checkpoint:") id (by decide)
      (fun c hc => (hid c hc).2),
    stripCr_preserved (str "head ") h (by decide) (fun c hc => (hh c hc).2),
    stripCr_preserved (str "index-tree ") it (by decide)
      (fun c hc => (hit c hc).2),
    stripCr_preserved (str "worktree-tree ") wt (by decide)
      (fun c hc => (hwt c hc).2),
    stripCr_preserved (str "created ") ts (by decide)
      (fun c hc => (hts c hc).2),
    List.findSome?, m1, m2, m3, m4]

end Supertree
